import Mathlib

/-!
Verification of the polyscope registry / extent / pick subsystem
(`src/polyscope.cpp`) against its natural-language specification.

Shallow embedding conventions:
- `double` values that the claims reason about are modelled as `ℚ`
  (all arithmetic involved is exact); the IEEE infinities used as fold
  sentinels in `updateStructureExtents` are modelled by the explicit
  three-valued type `DVal`.
- `std::map<std::string, T>` is modelled as an association list with
  unique keys; `m[k] = v` is insert-or-assign, `m.erase(k)` removes the
  key. Iteration order only feeds commutative/associative folds
  (min/max) and membership tests, so the claims are order-independent.
- C++ exceptions are modelled by `Except`: a raising operation returns
  `.error (message, state-at-throw-point)`; since all global state lives
  in the explicit `PolyState`, the state component is what a caller
  observes after catching.
- `updateStructureExtents` writes derived state that is recomputed from
  the category map at the end of every mutating operation; it is
  modelled as a pure function of that map.
- Code of this repository that is not in the sources (pick.cpp's codec
  and controller, utilities' randomInt) is modelled from the spec, each
  with a doc comment saying so.
-/

set_option autoImplicit false

namespace Polyscope

/-- Triple of rationals modelling `geometrycentral::Vector3` (three doubles). -/
abbrev Vec3 := ℚ × ℚ × ℚ

/-- Componentwise sum of two vectors. -/
def vadd (a c : Vec3) : Vec3 := (a.1 + c.1, a.2.1 + c.2.1, a.2.2 + c.2.2)

/-- Componentwise difference of two vectors. -/
def vsub (a c : Vec3) : Vec3 := (a.1 - c.1, a.2.1 - c.2.1, a.2.2 - c.2.2)

/-- Scalar multiple of a vector. -/
def vscale (q : ℚ) (a : Vec3) : Vec3 := (q * a.1, q * a.2.1, q * a.2.2)

/-- Squared Euclidean norm of a vector; `norm v = Real.sqrt (normSq v)`. -/
def normSq (a : Vec3) : ℚ := a.1 ^ 2 + a.2.1 ^ 2 + a.2.2 ^ 2

/-- Category tag of a structure: `enum class StructureType` (polyscope.h),
with the four variants stored in `state::structureCategories`. -/
inductive StructureType
  | pointCloud
  | surfaceMesh
  | cameraView
  | raySet
  deriving DecidableEq

/-- Observable data of a `Structure*`: its name, category tag, and the
two capabilities the registry core reads (`lengthScale()`,
`boundingBox()`); rendering capabilities are external collaborators. -/
structure Structure where
  name : String
  type : StructureType
  lengthScale : ℚ
  bboxMin : Vec3
  bboxMax : Vec3
  deriving DecidableEq

/-- Payload handed to a register operation, abstracted (as the spec does)
by the extent capabilities of the structure it constructs. -/
structure StructData where
  lengthScale : ℚ
  bboxMin : Vec3
  bboxMax : Vec3
  deriving DecidableEq

/-- Construct the structure a register operation stores. -/
def mkStructure (name : String) (t : StructureType) (d : StructData) : Structure :=
  ⟨name, t, d.lengthScale, d.bboxMin, d.bboxMax⟩

/-- Association-list model of `std::map<std::string, Structure*>`. -/
abbrev StrMap := List (String × Structure)

/-- Lookup: `m.find(k)` returning the mapped value when present. -/
def mapFind (m : StrMap) (k : String) : Option Structure :=
  match m with
  | [] => none
  | (k', v) :: rest => if k' = k then some v else mapFind rest k

/-- Insert-or-assign: `m[k] = v`. -/
def mapInsert (m : StrMap) (k : String) (v : Structure) : StrMap :=
  match m with
  | [] => [(k, v)]
  | (k', v') :: rest => if k' = k then (k, v) :: rest else (k', v') :: mapInsert rest k v

/-- Key removal: `m.erase(k)` (keys are unique, so removing the first
occurrence matches `std::map`). -/
def mapErase (m : StrMap) (k : String) : StrMap :=
  match m with
  | [] => []
  | (k', v') :: rest => if k' = k then rest else (k', v') :: mapErase rest k

/-- Model of `std::map<StructureType, std::map<std::string, Structure*>>`. -/
abbrev Cats := List (StructureType × StrMap)

/-- Lookup of a category's map; absent categories read as empty
(matching `operator[]` default construction on access). -/
def catsFind (cs : Cats) (t : StructureType) : StrMap :=
  match cs with
  | [] => []
  | (t', m) :: rest => if t' = t then m else catsFind rest t

/-- Write through the category map: `structureCategories[t][k] = v`
(`operator[]` creates the category when absent). -/
def catsInsert (cs : Cats) (t : StructureType) (k : String) (v : Structure) : Cats :=
  match cs with
  | [] => [(t, [(k, v)])]
  | (t', m) :: rest =>
      if t' = t then (t, mapInsert m k v) :: rest else (t', m) :: catsInsert rest t k v

/-- Erase through the category map: `structureCategories[t].erase(k)`
(`operator[]` creates an empty category when absent). -/
def catsErase (cs : Cats) (t : StructureType) (k : String) : Cats :=
  match cs with
  | [] => [(t, [])]
  | (t', m) :: rest =>
      if t' = t then (t, mapErase m k) :: rest else (t', m) :: catsErase rest t k

/-- Modelled from the spec: the pick controller's selection record
(pick.cpp is not in the sources). A selection holds a non-owning
reference to a structure — modelled by its (category, name) identity —
together with the decoded global index and the local index within the
owning structure's range. -/
structure PickSelection where
  refType : StructureType
  refName : String
  globalInd : ℕ
  localInd : ℕ
  deriving DecidableEq

/-- Registry and pick global state (`namespace state` in polyscope.cpp):
the four typed per-category maps, the category map, and the current pick
selection. The derived extent is recomputed from `structureCategories`
after every mutation (see `updateStructureExtents`). -/
structure PolyState where
  pointClouds : StrMap
  surfaceMeshes : StrMap
  cameraViews : StrMap
  raySets : StrMap
  structureCategories : Cats
  pickSel : Option PickSelection
  deriving DecidableEq

/-- Initial global state (polyscope.cpp lines 30-39): all typed maps
empty, the category map holding the four categories with empty maps, and
(from the spec's pick controller) no selection. -/
def initState : PolyState :=
  { pointClouds := []
    surfaceMeshes := []
    cameraViews := []
    raySets := []
    structureCategories :=
      [(StructureType.pointCloud, []), (StructureType.surfaceMesh, []),
       (StructureType.cameraView, []), (StructureType.raySet, [])]
    pickSel := none }

/-- The configurable error channel (`error(std::string message)`): raise
when `options::exceptionOnError` is set, otherwise print and continue. -/
def error (exceptionOnError : Bool) (message : String) : Except String Unit :=
  if exceptionOnError then .error message else .ok ()

/-- Membership of a name in any category of the category map, as scanned
by `checkStructureNameInUse`. -/
def nameInCats (cs : Cats) (name : String) : Bool :=
  cs.any (fun c => (mapFind c.2 name).isSome)

/-- Model of `checkStructureNameInUse(name, throwError)`: scans every
category for the name; on a hit with `throwError`, routes through the
error channel (raising aborts with the state unchanged — nothing has
been mutated yet), otherwise reports the hit. -/
def checkStructureNameInUse (exc : Bool) (s : PolyState) (name : String) (throwErr : Bool) :
    Except (String × PolyState) Bool :=
  if nameInCats s.structureCategories name then
    if throwErr then
      match error exc ("Structure name " ++ name ++ " is already in use.") with
      | .error m => .error (m, s)
      | .ok _ => .ok true
    else .ok true
  else .ok false

/-- Modelled from the spec: `pick::clearPickIfStructureSelected`
(pick.cpp is not in the sources) — "if current state is Selected and its
structure pointer equals the argument, transition to NoSelection".
Pointer identity of a live structure is modelled by (category, name). -/
def clearPickIfStructureSelected (sel : Option PickSelection) (t : StructureType)
    (name : String) : Option PickSelection :=
  match sel with
  | none => none
  | some p => if p.refType = t ∧ p.refName = name then none else some p

/-- Modelled from the spec: `pick::resetPick` (pick.cpp is not in the
sources) — "unconditionally transition to NoSelection". -/
def resetPick (_sel : Option PickSelection) : Option PickSelection := none

/-- Model of `removeStructure(name)`: search the typed maps in source
order (point clouds, surface meshes, camera views, ray sets); on the
first hit, clear the pick selection if it references that structure,
then erase from the typed map and the category map. If no typed map
holds the name, route through the error channel. -/
def removeStructure (exc : Bool) (s : PolyState) (name : String) :
    Except (String × PolyState) PolyState :=
  if (mapFind s.pointClouds name).isSome then
    .ok { s with
          pickSel := clearPickIfStructureSelected s.pickSel .pointCloud name
          pointClouds := mapErase s.pointClouds name
          structureCategories := catsErase s.structureCategories .pointCloud name }
  else if (mapFind s.surfaceMeshes name).isSome then
    .ok { s with
          pickSel := clearPickIfStructureSelected s.pickSel .surfaceMesh name
          surfaceMeshes := mapErase s.surfaceMeshes name
          structureCategories := catsErase s.structureCategories .surfaceMesh name }
  else if (mapFind s.cameraViews name).isSome then
    .ok { s with
          pickSel := clearPickIfStructureSelected s.pickSel .cameraView name
          cameraViews := mapErase s.cameraViews name
          structureCategories := catsErase s.structureCategories .cameraView name }
  else if (mapFind s.raySets name).isSome then
    .ok { s with
          pickSel := clearPickIfStructureSelected s.pickSel .raySet name
          raySets := mapErase s.raySets name
          structureCategories := catsErase s.structureCategories .raySet name }
  else
    match error exc ("No structure named: " ++ name ++ " to remove.") with
    | .error m => .error (m, s)
    | .ok _ => .ok s

/-- Model of `registerPointCloud(name, points, replaceIfPresent)`:
check the name (raising the in-use error exactly when the name is taken
and replacement is not permitted), remove the prior owner when the name
was in use, then insert into the typed map and the category map. -/
def registerPointCloud (exc : Bool) (s : PolyState) (name : String) (d : StructData)
    (replaceIfPresent : Bool) : Except (String × PolyState) PolyState :=
  match checkStructureNameInUse exc s name (!replaceIfPresent) with
  | .error e => .error e
  | .ok inUse =>
    match (if inUse then removeStructure exc s name else .ok s) with
    | .error e => .error e
    | .ok s1 =>
      .ok { s1 with
            pointClouds := mapInsert s1.pointClouds name (mkStructure name .pointCloud d)
            structureCategories :=
              catsInsert s1.structureCategories .pointCloud name
                (mkStructure name .pointCloud d) }

/-- Model of `registerSurfaceMesh`, identical to `registerPointCloud`
with the surface-mesh maps. -/
def registerSurfaceMesh (exc : Bool) (s : PolyState) (name : String) (d : StructData)
    (replaceIfPresent : Bool) : Except (String × PolyState) PolyState :=
  match checkStructureNameInUse exc s name (!replaceIfPresent) with
  | .error e => .error e
  | .ok inUse =>
    match (if inUse then removeStructure exc s name else .ok s) with
    | .error e => .error e
    | .ok s1 =>
      .ok { s1 with
            surfaceMeshes := mapInsert s1.surfaceMeshes name (mkStructure name .surfaceMesh d)
            structureCategories :=
              catsInsert s1.structureCategories .surfaceMesh name
                (mkStructure name .surfaceMesh d) }

/-- Model of `registerCameraView`, identical to `registerPointCloud`
with the camera-view maps. -/
def registerCameraView (exc : Bool) (s : PolyState) (name : String) (d : StructData)
    (replaceIfPresent : Bool) : Except (String × PolyState) PolyState :=
  match checkStructureNameInUse exc s name (!replaceIfPresent) with
  | .error e => .error e
  | .ok inUse =>
    match (if inUse then removeStructure exc s name else .ok s) with
    | .error e => .error e
    | .ok s1 =>
      .ok { s1 with
            cameraViews := mapInsert s1.cameraViews name (mkStructure name .cameraView d)
            structureCategories :=
              catsInsert s1.structureCategories .cameraView name
                (mkStructure name .cameraView d) }

/-- Model of `registerRaySet`, identical to `registerPointCloud` with
the ray-set maps. -/
def registerRaySet (exc : Bool) (s : PolyState) (name : String) (d : StructData)
    (replaceIfPresent : Bool) : Except (String × PolyState) PolyState :=
  match checkStructureNameInUse exc s name (!replaceIfPresent) with
  | .error e => .error e
  | .ok inUse =>
    match (if inUse then removeStructure exc s name else .ok s) with
    | .error e => .error e
    | .ok s1 =>
      .ok { s1 with
            raySets := mapInsert s1.raySets name (mkStructure name .raySet d)
            structureCategories :=
              catsInsert s1.structureCategories .raySet name
                (mkStructure name .raySet d) }

/-- Model of `getPointCloud(name)`: typed lookup; on a miss, route
through the error channel and (when continuing) return null. -/
def getPointCloud (exc : Bool) (s : PolyState) (name : String) :
    Except (String × PolyState) (Option Structure) :=
  match mapFind s.pointClouds name with
  | some pc => .ok (some pc)
  | none =>
    match error exc ("No point cloud with name " ++ name ++ " registered") with
    | .error m => .error (m, s)
    | .ok _ => .ok none

/-- Model of `removeAllStructures()` exactly as written in the source
(lines 552-560): it deletes the point-cloud and surface-mesh structures,
clears those two typed maps and the whole category map, and resets the
pick selection — it never touches `state::cameraViews` or
`state::raySets`. -/
def removeAllStructures (s : PolyState) : PolyState :=
  { s with
    pointClouds := []
    surfaceMeshes := []
    structureCategories := []
    pickSel := resetPick s.pickSel }

/-- Model of the double-initialization guard of `init()` (lines
101-104): when already initialized it throws directly — not through the
configurable `error` channel, so `options::exceptionOnError` (passed
here to expose that independence) is ignored. On first call the
remaining body is external context/GL setup, after which the flag is
set. Returns the new `state::initialized` flag. -/
def init (_exceptionOnError : Bool) (initialized : Bool) : Except String Bool :=
  if initialized then .error "Initialize called twice"
  else .ok true

/-- Double value as used by the extent fold: a finite rational or one of
the IEEE infinities employed as fold sentinels (line 565-566). -/
inductive DVal
  | finite (q : ℚ)
  | posInf
  | negInf
  deriving DecidableEq

/-- IEEE minimum on the values that occur in the fold. -/
def dmin : DVal → DVal → DVal
  | .negInf, _ => .negInf
  | _, .negInf => .negInf
  | .posInf, y => y
  | x, .posInf => x
  | .finite a, .finite b => .finite (min a b)

/-- IEEE maximum on the values that occur in the fold. -/
def dmax : DVal → DVal → DVal
  | .posInf, _ => .posInf
  | _, .posInf => .posInf
  | .negInf, y => y
  | x, .negInf => x
  | .finite a, .finite b => .finite (max a b)

/-- Finiteness of one component (`std::isfinite`). -/
def DVal.isFinite : DVal → Bool
  | .finite _ => true
  | _ => false

/-- Finite value extraction; only used under a finiteness guard. -/
def DVal.toRat : DVal → ℚ
  | .finite q => q
  | _ => 0

/-- Triple of extended doubles used during the corner folds. -/
abbrev Vec3D := DVal × DVal × DVal

/-- Coerce a finite vector into the fold domain. -/
def toVec3D (v : Vec3) : Vec3D := (.finite v.1, .finite v.2.1, .finite v.2.2)

/-- Componentwise minimum (`geometrycentral::componentwiseMin`). -/
def cwMin (a c : Vec3D) : Vec3D := (dmin a.1 c.1, dmin a.2.1 c.2.1, dmin a.2.2 c.2.2)

/-- Componentwise maximum (`geometrycentral::componentwiseMax`). -/
def cwMax (a c : Vec3D) : Vec3D := (dmax a.1 c.1, dmax a.2.1 c.2.1, dmax a.2.2 c.2.2)

/-- Vector finiteness (`Vector3::isFinite`): every component finite. -/
def vfinite (v : Vec3D) : Bool := v.1.isFinite && v.2.1.isFinite && v.2.2.isFinite

/-- Finite-vector extraction; only used under a `vfinite` guard. -/
def vtoQ (v : Vec3D) : Vec3 := (v.1.toRat, v.2.1.toRat, v.2.2.toRat)

/-- Every live structure, in category-map iteration order, as walked by
the double loop of `updateStructureExtents` (lines 568-575). -/
def allStructures (cs : Cats) : List Structure :=
  (cs.map (fun c => c.2.map Prod.snd)).flatten

/-- Derived extent state: the stored bounding box corners and center,
plus the folded length scale before the zero fallback (the stored
`state::lengthScale` is `extentLengthScale` below, which applies the
fallback). -/
structure Extent where
  bboxMin : Vec3
  bboxMax : Vec3
  center : Vec3
  scaleFold : ℚ
  deriving DecidableEq

/-- Model of `updateStructureExtents()` (lines 562-593): fold length
scale (max, from 0) and corners (componentwise min/max, from ±infinity)
over all live structures; reset the corners to ±(1,1,1) when either is
non-finite after the fold; store the corners and the midpoint center. -/
def updateStructureExtents (cs : Cats) : Extent :=
  let structs := allStructures cs
  let scale0 : ℚ := structs.foldl (fun acc x => max acc x.lengthScale) 0
  let minB : Vec3D := structs.foldl (fun acc x => cwMin acc (toVec3D x.bboxMin))
    (.posInf, .posInf, .posInf)
  let maxB : Vec3D := structs.foldl (fun acc x => cwMax acc (toVec3D x.bboxMax))
    (.negInf, .negInf, .negInf)
  let reset := !(vfinite minB && vfinite maxB)
  let mn : Vec3 := if reset then (-1, -1, -1) else vtoQ minB
  let mx : Vec3 := if reset then (1, 1, 1) else vtoQ maxB
  { bboxMin := mn
    bboxMax := mx
    center := vscale (1/2) (vadd mn mx)
    scaleFold := scale0 }

/-- Stored `state::lengthScale` after the zero fallback (lines 587-589):
when the fold produced exactly 0, the Euclidean norm of the (possibly
reset) bounding-box diagonal. -/
noncomputable def extentLengthScale (e : Extent) : ℝ :=
  if e.scaleFold = 0 then Real.sqrt (normSq (vsub e.bboxMax e.bboxMin))
  else (e.scaleFold : ℝ)

/-- Modelled from the spec: the pick color codec (`pick::indToVec`,
pick.cpp/pick.h are not in the sources) — "the encode function maps an
index to a unique RGB triple (exact inverse of decode) using a fixed
base/radix scheme over the three channels"; colors are modelled by their
quantized integer channel values ("conceptually quantized/integral
indices") in base `b`, the channel precision limit: encode writes the
index's base-`b` digits into the (r, g, b) channels. -/
def indToVec (b : ℕ) (i : ℕ) : ℕ × ℕ × ℕ := (i % b, (i / b) % b, i / b ^ 2)

/-- Modelled from the spec: the pick color decoder (`pick::vecToInd`,
pick.cpp/pick.h are not in the sources) — reads the base-`b` digits back
off the three channels. -/
def vecToInd (b : ℕ) (c : ℕ × ℕ × ℕ) : ℕ := c.1 + b * c.2.1 + b ^ 2 * c.2.2

/-- Modelled from the spec: `pick::setCurrentPickElement` (pick.cpp is
not in the sources) — "resolve which structure owns that index range and
compute the local index within it; transition to Selected". Resolution
of a global index to (owning structure, local index) is a collaborator
responsibility, modelled by the parameter `resolve`; the double-click
flag is forwarded to the structure and does not affect the transition. -/
def setCurrentPickElement (resolve : ℕ → (StructureType × String) × ℕ) (ind : ℕ)
    (_doubleClick : Bool) (_prev : Option PickSelection) : Option PickSelection :=
  some { refType := (resolve ind).1.1
         refName := (resolve ind).1.2
         globalInd := ind
         localInd := (resolve ind).2 }

/-- Model of the decision tail of `evaluatePickQuery` (lines 209-215):
the GL render/readback is modelled by the read-back `color`; decode it,
then reset the pick on index 0 and select on a nonzero index. -/
def evaluatePickQuerySelect (b : ℕ) (resolve : ℕ → (StructureType × String) × ℕ)
    (prev : Option PickSelection) (color : ℕ × ℕ × ℕ) (doubleClick : Bool) :
    Option PickSelection :=
  let ind := vecToInd b color
  if ind = 0 then resetPick prev else setCurrentPickElement resolve ind doubleClick prev

/-- Cached pick-renderbuffer state: the width/height recorded at the
last allocation (`currPickBufferWidth/Height`) and a count of
allocations performed (each allocation of line 71-85 destroys and
recreates the GL renderbuffer storage). -/
structure PickBuffer where
  width : ℕ
  height : ℕ
  allocCount : ℕ
  deriving DecidableEq

/-- Model of `allocatePickRenderbuffers()` (lines 71-85): allocate
storage at the current viewport size and update the cached size. -/
def allocatePickRenderbuffers (viewW viewH : ℕ) (b : PickBuffer) : PickBuffer :=
  { width := viewW, height := viewH, allocCount := b.allocCount + 1 }

/-- Model of the buffer-management head of `evaluatePickQuery` (lines
171-180): when the cached size differs from the current viewport size,
delete the renderbuffers and allocate new ones; otherwise reuse. -/
def evaluatePickQueryBuffer (viewW viewH : ℕ) (b : PickBuffer) : PickBuffer :=
  if b.width ≠ viewW ∨ b.height ≠ viewH then allocatePickRenderbuffers viewW viewH b
  else b

/-- Fixed palette (lines 636-642), with the float channel values kept
exact as rationals. -/
def paletteColors : List (ℚ × ℚ × ℚ) :=
  [(171/255, 71/255, 188/255),
   (66/255, 165/255, 245/255),
   (38/255, 166/255, 154/255),
   (255/255, 167/255, 38/255),
   (38/255, 198/255, 218/255)]

/-- Model of `getNextPaletteColor()` (lines 644-653): state is the
static `iPaletteColor` (-1 meaning uninitialized); `randomInt(0, size-1)`
(utilities, not in the sources) is modelled by the parameter `r`.
Returns the color together with the advanced state. -/
def getNextPaletteColor (r : ℕ) (iPaletteColor : ℤ) : (ℚ × ℚ × ℚ) × ℤ :=
  let i : ℤ := if iPaletteColor = -1 then (r : ℤ) else iPaletteColor
  (paletteColors.getD i.toNat (0, 0, 0), (i + 1) % (paletteColors.length : ℤ))

/-- Registry mutation operations, for reasoning over sequences. -/
inductive Op
  | regPointCloud (name : String) (d : StructData) (replaceIfPresent : Bool)
  | regSurfaceMesh (name : String) (d : StructData) (replaceIfPresent : Bool)
  | regCameraView (name : String) (d : StructData) (replaceIfPresent : Bool)
  | regRaySet (name : String) (d : StructData) (replaceIfPresent : Bool)
  | remove (name : String)
  | removeAll

/-- State left behind by an operation: on a raise, the state at the
throw point (which the enclosing program observes after catching). -/
def runExc (r : Except (String × PolyState) PolyState) : PolyState :=
  match r with
  | .ok s => s
  | .error (_, s) => s

/-- One registry operation applied to the global state. -/
def step (exc : Bool) (s : PolyState) : Op → PolyState
  | .regPointCloud n d r => runExc (registerPointCloud exc s n d r)
  | .regSurfaceMesh n d r => runExc (registerSurfaceMesh exc s n d r)
  | .regCameraView n d r => runExc (registerCameraView exc s n d r)
  | .regRaySet n d r => runExc (registerRaySet exc s n d r)
  | .remove n => runExc (removeStructure exc s n)
  | .removeAll => removeAllStructures s

/-- A sequence of registry operations applied from a starting state. -/
def runOps (exc : Bool) (s : PolyState) (ops : List Op) : PolyState :=
  ops.foldl (step exc) s

/-- Typed per-category map of a state, by category tag. -/
def typedMap (s : PolyState) : StructureType → StrMap
  | .pointCloud => s.pointClouds
  | .surfaceMesh => s.surfaceMeshes
  | .cameraView => s.cameraViews
  | .raySet => s.raySets

/-- Every registered name, across all four typed maps. -/
def allNames (s : PolyState) : List String :=
  s.pointClouds.map Prod.fst ++ s.surfaceMeshes.map Prod.fst ++
    s.cameraViews.map Prod.fst ++ s.raySets.map Prod.fst

/-- Registry consistency invariant claimed by the spec: no two
structures of any category share a name, and each typed per-category map
agrees with the corresponding slot of the category map. -/
def registryInvariant (s : PolyState) : Prop :=
  (allNames s).Nodup ∧
    catsFind s.structureCategories .pointCloud = s.pointClouds ∧
    catsFind s.structureCategories .surfaceMesh = s.surfaceMeshes ∧
    catsFind s.structureCategories .cameraView = s.cameraViews ∧
    catsFind s.structureCategories .raySet = s.raySets

/-- Category owning a given name, in the search order of
`removeStructure`. -/
def findCategory (s : PolyState) (name : String) : Option StructureType :=
  if (mapFind s.pointClouds name).isSome then some .pointCloud
  else if (mapFind s.surfaceMeshes name).isSome then some .surfaceMesh
  else if (mapFind s.cameraViews name).isSome then some .cameraView
  else if (mapFind s.raySets name).isSome then some .raySet
  else none

/-- Example register payload A: length scale 1, bounding box
[0,0,0]-[1,1,1] (the box of structure A in the spec's extent example). -/
def dA : StructData := ⟨1, (0, 0, 0), (1, 1, 1)⟩

/-- Example register payload B: length scale 2, bounding box
[2,2,2]-[3,3,3] (the box of structure B in the spec's extent example). -/
def dB : StructData := ⟨2, (2, 2, 2), (3, 3, 3)⟩

/-- C3: for every non-negative integer representable in the codec — the
three base-b channel digits give i < b^3 for channel precision b ≥ 1 —
decoding the encoding of i yields i back, and the encoding of index 0 is
the color triple (0,0,0). -/
theorem pick_codec_roundtrip (b i : ℕ) (_hb : 1 ≤ b) (_hi : i < b ^ 3) :
    vecToInd b (indToVec b i) = i ∧ indToVec b 0 = (0, 0, 0) := by
  constructor
  · show i % b + b * ((i / b) % b) + b ^ 2 * (i / b ^ 2) = i
    have h2 : i / b ^ 2 = i / b / b := by
      rw [Nat.div_div_eq_div_mul, pow_two]
    calc i % b + b * ((i / b) % b) + b ^ 2 * (i / b ^ 2)
        = i % b + b * ((i / b) % b + b * (i / b / b)) := by rw [h2, pow_two]; ring
      _ = i % b + b * (i / b) := by rw [Nat.mod_add_div]
      _ = i := Nat.mod_add_div i b
  · show (0 % b, (0 / b) % b, 0 / b ^ 2) = (0, 0, 0)
    simp

/-- Witness for the codec round trip at base 7, index 300. -/
theorem pick_codec_roundtrip_witness :
    1 ≤ 7 ∧ 300 < 7 ^ 3 ∧ vecToInd 7 (indToVec 7 300) = 300 ∧ indToVec 7 0 = (0, 0, 0) :=
  ⟨by decide, by decide, (pick_codec_roundtrip 7 300 (by decide) (by decide)).1,
    (pick_codec_roundtrip 7 300 (by decide) (by decide)).2⟩

/-- C7: for every prior pick-controller state, a pick query whose
read-back pixel decodes to index 0 transitions the controller to
NoSelection, and a query decoding to a nonzero index transitions it to
Selected with that index (resolved to its owning structure and local
index by the collaborator `resolve`). -/
theorem pick_query_transition (b : ℕ) (resolve : ℕ → (StructureType × String) × ℕ)
    (prev : Option PickSelection) (color : ℕ × ℕ × ℕ) (dc : Bool) :
    (vecToInd b color = 0 → evaluatePickQuerySelect b resolve prev color dc = none) ∧
    (vecToInd b color ≠ 0 →
      evaluatePickQuerySelect b resolve prev color dc =
        some ⟨(resolve (vecToInd b color)).1.1, (resolve (vecToInd b color)).1.2,
          vecToInd b color, (resolve (vecToInd b color)).2⟩) := by
  constructor <;> intro h <;>
    simp [evaluatePickQuerySelect, resetPick, setCurrentPickElement, h]

/-- Witness for the pick transition: the zero pixel clears a prior
selection, a nonzero pixel selects regardless of the prior selection. -/
theorem pick_query_transition_witness :
    evaluatePickQuerySelect 7 (fun n => ((StructureType.pointCloud, "a"), n - 1))
        (some ⟨.surfaceMesh, "m", 5, 2⟩) (0, 0, 0) false = none ∧
    evaluatePickQuerySelect 7 (fun n => ((StructureType.pointCloud, "a"), n - 1))
        (some ⟨.surfaceMesh, "m", 5, 2⟩) (3, 0, 0) false = some ⟨.pointCloud, "a", 3, 2⟩ :=
  ⟨(pick_query_transition 7 _ _ (0, 0, 0) false).1 (by decide),
    (pick_query_transition 7 _ _ (3, 0, 0) false).2 (by decide)⟩

/-- C8: at each pick query the offscreen target is destroyed and
reallocated iff the cached size differs from the viewport size, the
cache is updated to the viewport size on allocation, a second query at
an unchanged viewport performs no reallocation, and a single resize
between two queries triggers exactly one reallocation. -/
theorem pick_buffer_realloc (b : PickBuffer) (w h w' h' : ℕ) :
    ((evaluatePickQueryBuffer w h b).allocCount = b.allocCount + 1 ↔
      (b.width ≠ w ∨ b.height ≠ h)) ∧
    ((b.width ≠ w ∨ b.height ≠ h) →
      evaluatePickQueryBuffer w h b = allocatePickRenderbuffers w h b) ∧
    ((b.width = w ∧ b.height = h) → evaluatePickQueryBuffer w h b = b) ∧
    (evaluatePickQueryBuffer w h b).width = w ∧
    (evaluatePickQueryBuffer w h b).height = h ∧
    (evaluatePickQueryBuffer w h (evaluatePickQueryBuffer w h b) =
      evaluatePickQueryBuffer w h b) ∧
    ((w', h') ≠ (w, h) →
      (evaluatePickQueryBuffer w' h' (evaluatePickQueryBuffer w h b)).allocCount =
        (evaluatePickQueryBuffer w h b).allocCount + 1) := by
  have hne : ∀ (c : PickBuffer) (v u : ℕ), c.width ≠ v ∨ c.height ≠ u →
      evaluatePickQueryBuffer v u c = allocatePickRenderbuffers v u c := by
    intro c v u hc
    unfold evaluatePickQueryBuffer
    rw [if_pos hc]
  have heq : ∀ (c : PickBuffer) (v u : ℕ), c.width = v → c.height = u →
      evaluatePickQueryBuffer v u c = c := by
    intro c v u h1 h2
    unfold evaluatePickQueryBuffer
    rw [if_neg]
    push_neg
    exact ⟨h1, h2⟩
  have hsize : ∀ (c : PickBuffer) (v u : ℕ), (evaluatePickQueryBuffer v u c).width = v ∧
      (evaluatePickQueryBuffer v u c).height = u := by
    intro c v u
    by_cases hc : c.width ≠ v ∨ c.height ≠ u
    · rw [hne c v u hc]
      exact ⟨rfl, rfl⟩
    · push_neg at hc
      rw [heq c v u hc.1 hc.2]
      exact hc
  refine ⟨?_, hne b w h, fun hc => heq b w h hc.1 hc.2, (hsize b w h).1, (hsize b w h).2,
    heq _ w h (hsize b w h).1 (hsize b w h).2, ?_⟩
  · by_cases hc : b.width ≠ w ∨ b.height ≠ h
    · rw [hne b w h hc]
      simp only [allocatePickRenderbuffers, true_iff]
      exact hc
    · push_neg at hc
      rw [heq b w h hc.1 hc.2]
      constructor
      · intro habs
        omega
      · intro hor
        rcases hor with hor | hor
        · exact absurd hc.1 hor
        · exact absurd hc.2 hor
  · intro hc
    have hcc : (evaluatePickQueryBuffer w h b).width ≠ w' ∨
        (evaluatePickQueryBuffer w h b).height ≠ h' := by
      rw [(hsize b w h).1, (hsize b w h).2]
      by_contra hcon
      push_neg at hcon
      exact hc (by rw [hcon.1, hcon.2])
    rw [hne _ w' h' hcc]
    rfl

/-- Witness for the pick-buffer invalidation rule: starting from a cache
at 10 x 10, a query at 10 x 10 does not reallocate, a following query at
20 x 10 reallocates exactly once. -/
theorem pick_buffer_realloc_witness :
    evaluatePickQueryBuffer 10 10 ⟨10, 10, 1⟩ = (⟨10, 10, 1⟩ : PickBuffer) ∧
    (evaluatePickQueryBuffer 20 10 (evaluatePickQueryBuffer 10 10 ⟨10, 10, 1⟩)).allocCount =
      (evaluatePickQueryBuffer 10 10 ⟨10, 10, 1⟩).allocCount + 1 :=
  ⟨(pick_buffer_realloc ⟨10, 10, 1⟩ 10 10 20 10).2.2.1 (by decide),
    (pick_buffer_realloc ⟨10, 10, 1⟩ 10 10 20 10).2.2.2.2.2.2 (by decide)⟩

/-- C10: every call to getNextPaletteColor returns one of the five fixed
palette colors; from a valid index state i the call returns palette
entry i and advances to (i+1) mod 5, so subsequent calls return the next
entry in fixed cyclic order, wrapping from the fifth back to the first;
the randomly chosen first index (r < 5) is treated the same way. -/
theorem palette_cycle (r : ℕ) (i : ℤ) (hr : r < 5) (hi : i = -1 ∨ 0 ≤ i ∧ i < 5) :
    (getNextPaletteColor r i).1 ∈ paletteColors ∧
    (0 ≤ i → (getNextPaletteColor r i).1 = paletteColors.getD i.toNat (0, 0, 0) ∧
      (getNextPaletteColor r i).2 = (i + 1) % 5) ∧
    (getNextPaletteColor r 4).2 = 0 ∧
    (i = -1 → (getNextPaletteColor r i).1 = paletteColors.getD r (0, 0, 0) ∧
      (getNextPaletteColor r i).2 = ((r : ℤ) + 1) % 5) := by
  have hlen : paletteColors.length = 5 := by simp [paletteColors]
  have h4 : (getNextPaletteColor r 4).2 = 0 := by
    simp [getNextPaletteColor, paletteColors]
  rcases hi with hi | ⟨h0, h5⟩
  · subst hi
    refine ⟨?_, fun hh => absurd hh (by decide), h4, fun _ => ⟨?_, ?_⟩⟩
    · interval_cases r <;> simp [getNextPaletteColor, paletteColors]
    · simp [getNextPaletteColor]
    · simp [getNextPaletteColor, hlen]
  · have hne : i ≠ -1 := by omega
    refine ⟨?_, fun _ => ⟨?_, ?_⟩, h4, fun hh => absurd hh hne⟩ <;>
      interval_cases i <;> simp [getNextPaletteColor, paletteColors]

/-- Witness for the palette cycle at first-call index 2 and at state 4
(the wrap). -/
theorem palette_cycle_witness :
    (getNextPaletteColor 2 (-1)).1 = paletteColors.getD 2 (0, 0, 0) ∧
    (getNextPaletteColor 2 4).1 ∈ paletteColors ∧
    (getNextPaletteColor 2 4).2 = 0 :=
  ⟨((palette_cycle 2 (-1) (by decide) (Or.inl rfl)).2.2.2 rfl).1,
    (palette_cycle 2 4 (by decide) (Or.inr (by decide))).1,
    (palette_cycle 2 4 (by decide) (Or.inr (by decide))).2.2.1⟩

/-- Componentwise minimum over finite vectors: the corner fold restricted
to the finite values reached once a first structure has been visited. -/
def qcwMin (a c : Vec3) : Vec3 := (min a.1 c.1, min a.2.1 c.2.1, min a.2.2 c.2.2)

/-- Componentwise maximum over finite vectors. -/
def qcwMax (a c : Vec3) : Vec3 := (max a.1 c.1, max a.2.1 c.2.1, max a.2.2 c.2.2)

/-- On finite vectors the sentinel minimum agrees with the ℚ minimum. -/
theorem cwMin_finite (a c : Vec3) : cwMin (toVec3D a) (toVec3D c) = toVec3D (qcwMin a c) := rfl

/-- On finite vectors the sentinel maximum agrees with the ℚ maximum. -/
theorem cwMax_finite (a c : Vec3) : cwMax (toVec3D a) (toVec3D c) = toVec3D (qcwMax a c) := rfl

/-- The +infinity sentinel is the identity of the corner min. -/
theorem cwMin_posInf (v : Vec3) :
    cwMin (DVal.posInf, DVal.posInf, DVal.posInf) (toVec3D v) = toVec3D v := rfl

/-- The -infinity sentinel is the identity of the corner max. -/
theorem cwMax_negInf (v : Vec3) :
    cwMax (DVal.negInf, DVal.negInf, DVal.negInf) (toVec3D v) = toVec3D v := rfl

/-- Finite vectors pass the finiteness check. -/
theorem vfinite_toVec3D (v : Vec3) : vfinite (toVec3D v) = true := rfl

/-- Extraction undoes coercion on finite vectors. -/
theorem vtoQ_toVec3D (v : Vec3) : vtoQ (toVec3D v) = v := rfl

/-- The corner min-fold stays finite and agrees with the ℚ fold once
started from a finite vector. -/
theorem foldl_cwMin_finite (xs : List Structure) (v : Vec3) :
    xs.foldl (fun acc x => cwMin acc (toVec3D x.bboxMin)) (toVec3D v) =
      toVec3D (xs.foldl (fun acc x => qcwMin acc x.bboxMin) v) := by
  induction xs generalizing v with
  | nil => rfl
  | cons y ys ih =>
    simp only [List.foldl_cons, cwMin_finite]
    exact ih _

/-- The corner max-fold stays finite and agrees with the ℚ fold once
started from a finite vector. -/
theorem foldl_cwMax_finite (xs : List Structure) (v : Vec3) :
    xs.foldl (fun acc x => cwMax acc (toVec3D x.bboxMax)) (toVec3D v) =
      toVec3D (xs.foldl (fun acc x => qcwMax acc x.bboxMax) v) := by
  induction xs generalizing v with
  | nil => rfl
  | cons y ys ih =>
    simp only [List.foldl_cons, cwMax_finite]
    exact ih _

/-- The initial value bounds the running max-fold of length scales. -/
theorem foldl_max_init_le (xs : List Structure) (a : ℚ) :
    a ≤ xs.foldl (fun acc y => max acc y.lengthScale) a := by
  induction xs generalizing a with
  | nil => exact le_refl a
  | cons y ys ih => exact le_trans (le_max_left a y.lengthScale) (ih _)

/-- Every element bounds the running max-fold of length scales. -/
theorem foldl_max_mem_le (xs : List Structure) (a : ℚ) :
    ∀ x ∈ xs, x.lengthScale ≤ xs.foldl (fun acc y => max acc y.lengthScale) a := by
  induction xs generalizing a with
  | nil => intro x hx; cases hx
  | cons y ys ih =>
    intro x hx
    rcases List.mem_cons.mp hx with rfl | hx
    · exact le_trans (le_max_right a x.lengthScale) (foldl_max_init_le ys _)
    · exact ih _ x hx

/-- The max-fold of length scales is the initial value or is attained by
an element. -/
theorem foldl_max_attained (xs : List Structure) (a : ℚ) :
    xs.foldl (fun acc y => max acc y.lengthScale) a = a ∨
      ∃ x ∈ xs, xs.foldl (fun acc y => max acc y.lengthScale) a = x.lengthScale := by
  induction xs generalizing a with
  | nil => exact Or.inl rfl
  | cons y ys ih =>
    rcases ih (max a y.lengthScale) with h | ⟨x, hx, h⟩
    · rcases max_choice a y.lengthScale with hm | hm
      · exact Or.inl (by rw [List.foldl_cons, h, hm])
      · exact Or.inr ⟨y, List.mem_cons_self y ys, by rw [List.foldl_cons, h, hm]⟩
    · exact Or.inr ⟨x, List.mem_cons_of_mem y hx, by rw [List.foldl_cons, h]⟩

/-- The stored folded length scale is the max-fold over all live
structures from 0. -/
theorem updateStructureExtents_scaleFold (cs : Cats) :
    (updateStructureExtents cs).scaleFold =
      (allStructures cs).foldl (fun acc x => max acc x.lengthScale) 0 := rfl

/-- Closed form of the extent on a nonempty registry: the sentinel folds
collapse to plain ℚ folds started at the first structure's corners. -/
theorem updateStructureExtents_cons (cs : Cats) (x0 : Structure) (xs : List Structure)
    (hss : allStructures cs = x0 :: xs) :
    updateStructureExtents cs =
      { bboxMin := xs.foldl (fun acc x => qcwMin acc x.bboxMin) x0.bboxMin
        bboxMax := xs.foldl (fun acc x => qcwMax acc x.bboxMax) x0.bboxMax
        center := vscale (1/2)
          (vadd (xs.foldl (fun acc x => qcwMin acc x.bboxMin) x0.bboxMin)
            (xs.foldl (fun acc x => qcwMax acc x.bboxMax) x0.bboxMax))
        scaleFold := xs.foldl (fun acc y => max acc y.lengthScale) (max 0 x0.lengthScale) } := by
  simp only [updateStructureExtents, hss, List.foldl_cons, cwMin_posInf, cwMax_negInf,
    foldl_cwMin_finite, foldl_cwMax_finite, vfinite_toVec3D, vtoQ_toVec3D, Bool.and_self,
    Bool.not_true, Bool.false_eq_true, if_false]

/-- Closed form of the extent on the empty registry. -/
theorem updateStructureExtents_nil (cs : Cats) (hss : allStructures cs = []) :
    (updateStructureExtents cs).bboxMin = (-1, -1, -1) ∧
      (updateStructureExtents cs).bboxMax = (1, 1, 1) ∧
      (updateStructureExtents cs).scaleFold = 0 := by
  refine ⟨?_, ?_, ?_⟩ <;>
    simp [updateStructureExtents, hss, vfinite, DVal.isFinite]

/-- Category map holding structures A (bbox [0,0,0]-[1,1,1]) and B
(bbox [2,2,2]-[3,3,3]), built by register operations from the empty
registry. -/
def csAB : Cats :=
  (runOps true initState
    [Op.regPointCloud "A" dA true, Op.regPointCloud "B" dB true]).structureCategories

/-- C4: recomputing the global extent: the folded length scale bounds
every live structure's scale and, on a nonempty registry with the
nonnegative scales the spec requires of structures, equals some
structure's scale (i.e. it is their maximum); on a nonempty registry the
bounding-box corners are the componentwise min/max folds of the
structures' boxes; an empty registry (non-finite fold) resets the box to
[(-1,-1,-1),(1,1,1)]; a folded scale of exactly 0 is replaced by the
Euclidean norm of (max corner - min corner); the center is the midpoint
of the corners; and on the spec's example — boxes [0,0,0]-[1,1,1] and
[2,2,2]-[3,3,3] — the aggregate box is [0,0,0]-[3,3,3] with center
(1.5,1.5,1.5). -/
theorem extent_aggregation (cs : Cats) :
    (∀ x ∈ allStructures cs, x.lengthScale ≤ (updateStructureExtents cs).scaleFold) ∧
    (allStructures cs ≠ [] → (∀ x ∈ allStructures cs, 0 ≤ x.lengthScale) →
      ∃ x ∈ allStructures cs, (updateStructureExtents cs).scaleFold = x.lengthScale) ∧
    (∀ x0 xs, allStructures cs = x0 :: xs →
      (updateStructureExtents cs).bboxMin =
        xs.foldl (fun acc x => qcwMin acc x.bboxMin) x0.bboxMin ∧
      (updateStructureExtents cs).bboxMax =
        xs.foldl (fun acc x => qcwMax acc x.bboxMax) x0.bboxMax) ∧
    (allStructures cs = [] →
      (updateStructureExtents cs).bboxMin = (-1, -1, -1) ∧
      (updateStructureExtents cs).bboxMax = (1, 1, 1)) ∧
    ((updateStructureExtents cs).scaleFold = 0 →
      extentLengthScale (updateStructureExtents cs) =
        Real.sqrt (normSq (vsub (updateStructureExtents cs).bboxMax
          (updateStructureExtents cs).bboxMin))) ∧
    ((updateStructureExtents cs).center =
      vscale (1/2) (vadd (updateStructureExtents cs).bboxMin
        (updateStructureExtents cs).bboxMax)) ∧
    ((updateStructureExtents csAB).bboxMin = (0, 0, 0) ∧
      (updateStructureExtents csAB).bboxMax = (3, 3, 3) ∧
      (updateStructureExtents csAB).center = (3/2, 3/2, 3/2)) := by
  have hAB : allStructures csAB =
      [mkStructure "A" .pointCloud dA, mkStructure "B" .pointCloud dB] := rfl
  have hABex := updateStructureExtents_cons csAB _ _ hAB
  refine ⟨?_, ?_, ?_, ?_, ?_, rfl, ?_⟩
  · intro x hx
    rw [updateStructureExtents_scaleFold]
    exact foldl_max_mem_le _ 0 x hx
  · intro hne hnn
    rcases foldl_max_attained (allStructures cs) 0 with h | ⟨x, hx, h⟩
    · obtain ⟨x0, xs, hss⟩ := List.exists_cons_of_ne_nil hne
      have hx0 : x0 ∈ allStructures cs := by rw [hss]; exact List.mem_cons_self x0 xs
      have h1 := foldl_max_mem_le (allStructures cs) 0 x0 hx0
      have h2 := hnn x0 hx0
      refine ⟨x0, hx0, ?_⟩
      rw [updateStructureExtents_scaleFold, h]
      rw [h] at h1
      linarith
    · exact ⟨x, hx, by rw [updateStructureExtents_scaleFold, h]⟩
  · intro x0 xs hss
    rw [updateStructureExtents_cons cs x0 xs hss]
    exact ⟨rfl, rfl⟩
  · intro hss
    exact ⟨(updateStructureExtents_nil cs hss).1, (updateStructureExtents_nil cs hss).2.1⟩
  · intro h0
    rw [extentLengthScale, if_pos h0]
  · rw [hABex]
    norm_num [qcwMin, qcwMax, vadd, vscale, mkStructure, dA, dB, min_def, max_def]

/-- Witness for the extent aggregation at the two-structure registry of
the spec's example. -/
theorem extent_aggregation_witness :
    allStructures csAB ≠ [] ∧
    (∃ x ∈ allStructures csAB, (updateStructureExtents csAB).scaleFold = x.lengthScale) ∧
    (updateStructureExtents csAB).bboxMin = (0, 0, 0) := by
  have h := extent_aggregation csAB
  refine ⟨by decide, h.2.1 (by decide) ?_, h.2.2.2.2.2.2.1⟩
  intro x hx
  rw [show allStructures csAB =
    [mkStructure "A" .pointCloud dA, mkStructure "B" .pointCloud dB] from rfl] at hx
  rcases List.mem_cons.mp hx with rfl | hx2
  · norm_num [mkStructure, dA]
  · rcases List.mem_cons.mp hx2 with rfl | hx3
    · norm_num [mkStructure, dB]
    · cases hx3

/-- Registry holding one camera view named "cam", with an active
selection referencing it. -/
def stateCV : PolyState :=
  { runExc (registerCameraView true initState "cam" dA false) with
    pickSel := some ⟨.cameraView, "cam", 7, 6⟩ }

/-- C1: evaluation of removeAllStructures on a registry holding one
camera view: the point-cloud and surface-mesh maps and the category map
are cleared, the pick selection becomes NoSelection, and the recomputed
extent has the empty-registry defaults — but the typed camera-view map
still holds its entry (and the camera-view structure is never
destroyed), refuting "destroys every structure across all categories,
clears all of the maps". -/
theorem removeAll_leaves_cameraViews :
    (removeAllStructures stateCV).pointClouds = [] ∧
    (removeAllStructures stateCV).surfaceMeshes = [] ∧
    (removeAllStructures stateCV).structureCategories = [] ∧
    (removeAllStructures stateCV).pickSel = none ∧
    (updateStructureExtents (removeAllStructures stateCV).structureCategories).bboxMin =
      (-1, -1, -1) ∧
    (updateStructureExtents (removeAllStructures stateCV).structureCategories).bboxMax =
      (1, 1, 1) ∧
    (updateStructureExtents (removeAllStructures stateCV).structureCategories).center =
      (0, 0, 0) ∧
    (updateStructureExtents (removeAllStructures stateCV).structureCategories).scaleFold = 0 ∧
    (removeAllStructures stateCV).cameraViews =
      [("cam", mkStructure "cam" .cameraView dA)] := by
  refine ⟨rfl, rfl, rfl, rfl, rfl, rfl, ?_, rfl, rfl⟩
  show (updateStructureExtents []).center = ((0 : ℚ), (0 : ℚ), (0 : ℚ))
  norm_num [updateStructureExtents, allStructures, vfinite, DVal.isFinite, vscale, vadd]

/-- Registry holding one point cloud named "a". -/
def stateA : PolyState := runExc (registerPointCloud true initState "a" dA false)

/-- C2 counterexample: with the error channel configured to log and
continue, registering the duplicate name "a" with replaceIfPresent =
false succeeds and replaces the old structure — the registry does not
stay unchanged, refuting "regardless of whether the error channel is
configured to raise or to log and continue". -/
theorem register_duplicate_logging_mutates :
    registerPointCloud false stateA "a" dB false =
      .ok (runExc (registerPointCloud false stateA "a" dB false)) ∧
    runExc (registerPointCloud false stateA "a" dB false) ≠ stateA ∧
    (runExc (registerPointCloud false stateA "a" dB false)).pointClouds =
      [("a", mkStructure "a" .pointCloud dB)] := by
  refine ⟨rfl, ?_, by decide⟩
  decide

/-- C2 amended: registering a name already in use with replaceIfPresent
= false: when the error channel raises, every register operation signals
"name already in use" and leaves the registry exactly unchanged; when
the channel logs and continues, the error is logged and the operation
then behaves exactly as replaceIfPresent = true (the old structure is
removed, the new one inserted). -/
theorem register_duplicate_noReplace (s : PolyState) (name : String) (d : StructData)
    (h : nameInCats s.structureCategories name = true) :
    (registerPointCloud true s name d false =
        .error ("Structure name " ++ name ++ " is already in use.", s) ∧
      registerSurfaceMesh true s name d false =
        .error ("Structure name " ++ name ++ " is already in use.", s) ∧
      registerCameraView true s name d false =
        .error ("Structure name " ++ name ++ " is already in use.", s) ∧
      registerRaySet true s name d false =
        .error ("Structure name " ++ name ++ " is already in use.", s)) ∧
    (registerPointCloud false s name d false = registerPointCloud false s name d true ∧
      registerSurfaceMesh false s name d false = registerSurfaceMesh false s name d true ∧
      registerCameraView false s name d false = registerCameraView false s name d true ∧
      registerRaySet false s name d false = registerRaySet false s name d true) := by
  have hchk : checkStructureNameInUse true s name true =
      .error ("Structure name " ++ name ++ " is already in use.", s) := by
    simp [checkStructureNameInUse, h, error]
  have hchk1 : checkStructureNameInUse false s name true = .ok true := by
    simp [checkStructureNameInUse, h, error]
  have hchk2 : checkStructureNameInUse false s name false = .ok true := by
    simp [checkStructureNameInUse, h]
  constructor
  · refine ⟨?_, ?_, ?_, ?_⟩ <;>
      simp [registerPointCloud, registerSurfaceMesh, registerCameraView, registerRaySet, hchk]
  · refine ⟨?_, ?_, ?_, ?_⟩ <;>
      simp [registerPointCloud, registerSurfaceMesh, registerCameraView, registerRaySet,
        hchk1, hchk2]

/-- Witness for the amended duplicate-name behavior at the registry
holding point cloud "a". -/
theorem register_duplicate_noReplace_witness :
    nameInCats stateA.structureCategories "a" = true ∧
    registerPointCloud true stateA "a" dB false =
      .error ("Structure name " ++ "a" ++ " is already in use.", stateA) ∧
    registerPointCloud false stateA "a" dB false =
      registerPointCloud false stateA "a" dB true :=
  ⟨by decide, (register_duplicate_noReplace stateA "a" dB (by decide)).1.1,
    (register_duplicate_noReplace stateA "a" dB (by decide)).2.1⟩

/-- Sequence exhibiting the removeAll inconsistency: register a camera
view, then remove all structures. -/
def opsC5 : List Op := [Op.regCameraView "cv" dA false, Op.removeAll]

/-- C5: evaluation of the operation sequence [register camera view
"cv", removeAll] from the empty registry: the typed camera-view map
still holds "cv" while the category map is empty, so the typed
per-category maps do not agree with the category map — refuting the
invariant for sequences containing removeAll; registering a point cloud
under the same name afterwards then yields two registered structures
sharing one name. -/
theorem registry_invariant_fails_after_removeAll :
    ¬ registryInvariant (runOps true initState opsC5) ∧
    (runOps true initState opsC5).cameraViews = [("cv", mkStructure "cv" .cameraView dA)] ∧
    catsFind (runOps true initState opsC5).structureCategories .cameraView = [] ∧
    ¬ (allNames (runOps true initState (opsC5 ++ [Op.regPointCloud "cv" dB false]))).Nodup := by
  refine ⟨?_, by decide, by decide, ?_⟩
  · unfold registryInvariant
    decide
  · unfold allNames
    decide

/-- C9 counterexample: with the channel configured to log and continue
the channel would continue, but double-initialization raises
unconditionally — it is not reported through the configurable channel. -/
theorem doubleInit_not_on_channel :
    init false true = .error "Initialize called twice" ∧
    error false "Initialize called twice" = .ok () :=
  ⟨rfl, rfl⟩

/-- A lookup misses exactly when the key is not among the map's keys. -/
theorem mapFind_eq_none_iff (m : StrMap) (k : String) :
    mapFind m k = none ↔ k ∉ m.map Prod.fst := by
  induction m with
  | nil => simp [mapFind]
  | cons p rest ih =>
    obtain ⟨k', v⟩ := p
    by_cases hk : k' = k
    · subst hk
      simp [mapFind]
    · simp [mapFind, hk, ih, Ne.symm hk]

/-- A lookup succeeds exactly when the key is among the map's keys. -/
theorem mapFind_isSome_iff (m : StrMap) (k : String) :
    (mapFind m k).isSome = true ↔ k ∈ m.map Prod.fst := by
  rw [Option.isSome_iff_ne_none, ne_eq, mapFind_eq_none_iff, not_not]

/-- Erasure removes the first occurrence of the key from the key list. -/
theorem mapErase_keys (m : StrMap) (k : String) :
    (mapErase m k).map Prod.fst = (m.map Prod.fst).erase k := by
  induction m with
  | nil => rfl
  | cons p rest ih =>
    obtain ⟨k', v⟩ := p
    by_cases hk : k' = k
    · subst hk
      simp [mapErase]
    · simp [mapErase, hk, ih, List.erase_cons]

/-- Inserting a fresh key appends it to the key list. -/
theorem mapInsert_keys_of_not_mem (m : StrMap) (k : String) (v : Structure)
    (h : k ∉ m.map Prod.fst) :
    (mapInsert m k v).map Prod.fst = m.map Prod.fst ++ [k] := by
  induction m with
  | nil => rfl
  | cons p rest ih =>
    obtain ⟨k', w⟩ := p
    simp only [List.map_cons, List.mem_cons, not_or] at h
    simp [mapInsert, Ne.symm h.1, ih h.2]

/-- Reading the category map after an erase: the erased category reads
with the key erased, the others unchanged. -/
theorem catsFind_catsErase (cs : Cats) (t : StructureType) (k : String) (t' : StructureType) :
    catsFind (catsErase cs t k) t' =
      if t' = t then mapErase (catsFind cs t) k else catsFind cs t' := by
  induction cs with
  | nil =>
    by_cases h : t' = t
    · subst h
      simp [catsErase, catsFind, mapErase]
    · simp [catsErase, catsFind, h, Ne.symm h]
  | cons c rest ih =>
    obtain ⟨t1, m⟩ := c
    by_cases h1 : t1 = t
    · subst h1
      by_cases h2 : t' = t1
      · subst h2
        simp [catsErase, catsFind]
      · simp [catsErase, catsFind, h2, Ne.symm h2]
    · by_cases h2 : t1 = t'
      · subst h2
        simp [catsErase, catsFind, h1, ih, Ne.symm h1]
      · simp [catsErase, catsFind, h1, h2, ih]

/-- Reading the category map after an insert: the written category reads
with the key inserted, the others unchanged. -/
theorem catsFind_catsInsert (cs : Cats) (t : StructureType) (k : String) (v : Structure)
    (t' : StructureType) :
    catsFind (catsInsert cs t k v) t' =
      if t' = t then mapInsert (catsFind cs t) k v else catsFind cs t' := by
  induction cs with
  | nil =>
    by_cases h : t' = t
    · subst h
      simp [catsInsert, catsFind, mapInsert]
    · simp [catsInsert, catsFind, h, Ne.symm h]
  | cons c rest ih =>
    obtain ⟨t1, m⟩ := c
    by_cases h1 : t1 = t
    · subst h1
      by_cases h2 : t' = t1
      · subst h2
        simp [catsInsert, catsFind]
      · simp [catsInsert, catsFind, h2, Ne.symm h2]
    · by_cases h2 : t1 = t'
      · subst h2
        simp [catsInsert, catsFind, h1, ih, Ne.symm h1]
      · simp [catsInsert, catsFind, h1, h2, ih]

/-- With the channel set to log and continue, removal never raises. -/
theorem removeStructure_log_ok (s : PolyState) (name : String) :
    ∃ s1, removeStructure false s name = .ok s1 := by
  unfold removeStructure
  split
  · exact ⟨_, rfl⟩
  · split
    · exact ⟨_, rfl⟩
    · split
      · exact ⟨_, rfl⟩
      · split
        · exact ⟨_, rfl⟩
        · exact ⟨s, rfl⟩

/-- A removal that returns normally preserves the registry invariant and
leaves no typed map containing the removed name. -/
theorem removeStructure_ok_invariant (exc : Bool) (s : PolyState) (name : String)
    (hinv : registryInvariant s) (s' : PolyState)
    (h : removeStructure exc s name = .ok s') :
    registryInvariant s' ∧ mapFind s'.pointClouds name = none ∧
      mapFind s'.surfaceMeshes name = none ∧ mapFind s'.cameraViews name = none ∧
      mapFind s'.raySets name = none := by
  obtain ⟨hnd, hpc, hsm, hcv, hrs⟩ := hinv
  have hndA : (s.pointClouds.map Prod.fst ++ s.surfaceMeshes.map Prod.fst ++
      s.cameraViews.map Prod.fst ++ s.raySets.map Prod.fst).Nodup := hnd
  have dR := List.disjoint_of_nodup_append hndA
  have hndB := hndA.of_append_left
  have nrs := hndA.of_append_right
  have dV := List.disjoint_of_nodup_append hndB
  have hndC := hndB.of_append_left
  have ncv := hndB.of_append_right
  have dM := List.disjoint_of_nodup_append hndC
  have npc := hndC.of_append_left
  have nsm := hndC.of_append_right
  unfold removeStructure at h
  by_cases h1 : (mapFind s.pointClouds name).isSome
  · rw [if_pos h1] at h
    cases h
    have hmem : name ∈ s.pointClouds.map Prod.fst := (mapFind_isSome_iff _ _).mp h1
    refine ⟨⟨?_, ?_, ?_, ?_, ?_⟩, ?_, ?_, ?_, ?_⟩
    · show ((mapErase s.pointClouds name).map Prod.fst ++ s.surfaceMeshes.map Prod.fst ++
        s.cameraViews.map Prod.fst ++ s.raySets.map Prod.fst).Nodup
      rw [mapErase_keys]
      exact List.Nodup.sublist
        ((((List.erase_sublist _ _).append_right _).append_right _).append_right _) hndA
    · simp [catsFind_catsErase, hpc]
    · simp [catsFind_catsErase, hsm]
    · simp [catsFind_catsErase, hcv]
    · simp [catsFind_catsErase, hrs]
    · show mapFind (mapErase s.pointClouds name) name = none
      rw [mapFind_eq_none_iff, mapErase_keys]
      exact fun hx => ((npc.mem_erase_iff).mp hx).1 rfl
    · rw [mapFind_eq_none_iff]
      exact fun hx => dM hmem hx
    · rw [mapFind_eq_none_iff]
      exact fun hx => dV (List.mem_append_left _ hmem) hx
    · rw [mapFind_eq_none_iff]
      exact fun hx => dR (List.mem_append_left _ (List.mem_append_left _ hmem)) hx
  · rw [if_neg h1] at h
    have hn1 : mapFind s.pointClouds name = none := Option.not_isSome_iff_eq_none.mp h1
    by_cases h2 : (mapFind s.surfaceMeshes name).isSome
    · rw [if_pos h2] at h
      cases h
      have hmem : name ∈ s.surfaceMeshes.map Prod.fst := (mapFind_isSome_iff _ _).mp h2
      refine ⟨⟨?_, ?_, ?_, ?_, ?_⟩, hn1, ?_, ?_, ?_⟩
      · show (s.pointClouds.map Prod.fst ++ (mapErase s.surfaceMeshes name).map Prod.fst ++
          s.cameraViews.map Prod.fst ++ s.raySets.map Prod.fst).Nodup
        rw [mapErase_keys]
        exact List.Nodup.sublist
          ((((List.erase_sublist _ _).append_left _).append_right _).append_right _) hndA
      · simp [catsFind_catsErase, hpc]
      · simp [catsFind_catsErase, hsm]
      · simp [catsFind_catsErase, hcv]
      · simp [catsFind_catsErase, hrs]
      · show mapFind (mapErase s.surfaceMeshes name) name = none
        rw [mapFind_eq_none_iff, mapErase_keys]
        exact fun hx => ((nsm.mem_erase_iff).mp hx).1 rfl
      · rw [mapFind_eq_none_iff]
        exact fun hx => dV (List.mem_append_right _ hmem) hx
      · rw [mapFind_eq_none_iff]
        exact fun hx => dR (List.mem_append_left _ (List.mem_append_right _ hmem)) hx
    · rw [if_neg h2] at h
      have hn2 : mapFind s.surfaceMeshes name = none := Option.not_isSome_iff_eq_none.mp h2
      by_cases h3 : (mapFind s.cameraViews name).isSome
      · rw [if_pos h3] at h
        cases h
        have hmem : name ∈ s.cameraViews.map Prod.fst := (mapFind_isSome_iff _ _).mp h3
        refine ⟨⟨?_, ?_, ?_, ?_, ?_⟩, hn1, hn2, ?_, ?_⟩
        · show (s.pointClouds.map Prod.fst ++ s.surfaceMeshes.map Prod.fst ++
            (mapErase s.cameraViews name).map Prod.fst ++ s.raySets.map Prod.fst).Nodup
          rw [mapErase_keys]
          exact List.Nodup.sublist
            (((List.erase_sublist _ _).append_left _).append_right _) hndA
        · simp [catsFind_catsErase, hpc]
        · simp [catsFind_catsErase, hsm]
        · simp [catsFind_catsErase, hcv]
        · simp [catsFind_catsErase, hrs]
        · show mapFind (mapErase s.cameraViews name) name = none
          rw [mapFind_eq_none_iff, mapErase_keys]
          exact fun hx => ((ncv.mem_erase_iff).mp hx).1 rfl
        · rw [mapFind_eq_none_iff]
          exact fun hx => dR (List.mem_append_right _ hmem) hx
      · rw [if_neg h3] at h
        have hn3 : mapFind s.cameraViews name = none := Option.not_isSome_iff_eq_none.mp h3
        by_cases h4 : (mapFind s.raySets name).isSome
        · rw [if_pos h4] at h
          cases h
          refine ⟨⟨?_, ?_, ?_, ?_, ?_⟩, hn1, hn2, hn3, ?_⟩
          · show (s.pointClouds.map Prod.fst ++ s.surfaceMeshes.map Prod.fst ++
              s.cameraViews.map Prod.fst ++ (mapErase s.raySets name).map Prod.fst).Nodup
            rw [mapErase_keys]
            exact List.Nodup.sublist ((List.erase_sublist _ _).append_left _) hndA
          · simp [catsFind_catsErase, hpc]
          · simp [catsFind_catsErase, hsm]
          · simp [catsFind_catsErase, hcv]
          · simp [catsFind_catsErase, hrs]
          · show mapFind (mapErase s.raySets name) name = none
            rw [mapFind_eq_none_iff, mapErase_keys]
            exact fun hx => ((nrs.mem_erase_iff).mp hx).1 rfl
        · rw [if_neg h4] at h
          have hn4 : mapFind s.raySets name = none := Option.not_isSome_iff_eq_none.mp h4
          cases exc with
          | true => simp [error] at h
          | false =>
            simp [error] at h
            subst h
            exact ⟨⟨hnd, hpc, hsm, hcv, hrs⟩, hn1, hn2, hn3, hn4⟩

/-- With the channel set to log and continue, registering a duplicate
name without replace permission proceeds as a replacement and preserves
the registry consistency invariant: the error never corrupts the
registry. -/
theorem registerPointCloud_log_dup_invariant (s : PolyState) (name : String) (d : StructData)
    (h : nameInCats s.structureCategories name = true) (hinv : registryInvariant s) :
    registryInvariant (runExc (registerPointCloud false s name d false)) := by
  obtain ⟨s1, hrem⟩ := removeStructure_log_ok s name
  have hchk : checkStructureNameInUse false s name (!false) = .ok true := by
    simp [checkStructureNameInUse, h, error]
  have hres : runExc (registerPointCloud false s name d false) =
      { s1 with
        pointClouds := mapInsert s1.pointClouds name (mkStructure name .pointCloud d)
        structureCategories := catsInsert s1.structureCategories .pointCloud name
          (mkStructure name .pointCloud d) } := by
    unfold registerPointCloud
    rw [hchk, hrem]
    rfl
  obtain ⟨hinv1, hn1, hn2, hn3, hn4⟩ := removeStructure_ok_invariant false s name hinv s1 hrem
  obtain ⟨hnd1, h1pc, h1sm, h1cv, h1rs⟩ := hinv1
  have hnotmem : name ∉ s1.pointClouds.map Prod.fst := (mapFind_eq_none_iff _ _).mp hn1
  have hkeys := mapInsert_keys_of_not_mem s1.pointClouds name (mkStructure name .pointCloud d)
    hnotmem
  rw [hres]
  refine ⟨?_, ?_, ?_, ?_, ?_⟩
  · show ((mapInsert s1.pointClouds name (mkStructure name .pointCloud d)).map Prod.fst ++
      s1.surfaceMeshes.map Prod.fst ++ s1.cameraViews.map Prod.fst ++
      s1.raySets.map Prod.fst).Nodup
    rw [hkeys]
    have hperm : List.Perm
        ((s1.pointClouds.map Prod.fst ++ [name]) ++ s1.surfaceMeshes.map Prod.fst ++
          s1.cameraViews.map Prod.fst ++ s1.raySets.map Prod.fst)
        (name :: (s1.pointClouds.map Prod.fst ++ s1.surfaceMeshes.map Prod.fst ++
          s1.cameraViews.map Prod.fst ++ s1.raySets.map Prod.fst)) :=
      ((List.perm_append_comm.append_right _).append_right _).append_right _
    refine (hperm.nodup_iff).mpr (List.nodup_cons.mpr ⟨?_, hnd1⟩)
    intro hmem
    rcases List.mem_append.mp hmem with hx | hx
    · rcases List.mem_append.mp hx with hy | hy
      · rcases List.mem_append.mp hy with hz | hz
        · exact hnotmem hz
        · exact (mapFind_eq_none_iff _ _).mp hn2 hz
      · exact (mapFind_eq_none_iff _ _).mp hn3 hy
    · exact (mapFind_eq_none_iff _ _).mp hn4 hx
  · simp [catsFind_catsInsert, h1pc]
  · simp [catsFind_catsInsert, h1sm]
  · simp [catsFind_catsInsert, h1cv]
  · simp [catsFind_catsInsert, h1rs]

/-- C9 amended: duplicate-name registration, unknown-name lookup and
unknown-name removal are reported through the single configurable
channel according to the global flag — with the flag set, the error is
raised and the registry state is left exactly unchanged; with it
cleared, the channel continues past the error (the duplicate-name check
comes back affirmative after logging, the lookup returns null, the
removal is a no-op, and the duplicate-name register proceeds exactly as
a replacement) — and none of these paths corrupts the registry: the
raising and no-op paths keep the state untouched and the log-channel
duplicate-name register preserves the registry consistency invariant;
double-initialization, however, raises unconditionally, ignoring the
flag. -/
theorem misuse_error_channel (s : PolyState) (name : String) (d : StructData) :
    (nameInCats s.structureCategories name = true →
      registerPointCloud true s name d false =
        .error ("Structure name " ++ name ++ " is already in use.", s) ∧
      checkStructureNameInUse false s name true = .ok true ∧
      registerPointCloud false s name d false = registerPointCloud false s name d true ∧
      (registryInvariant s →
        registryInvariant (runExc (registerPointCloud false s name d false)))) ∧
    (mapFind s.pointClouds name = none →
      getPointCloud true s name =
        .error ("No point cloud with name " ++ name ++ " registered", s) ∧
      getPointCloud false s name = .ok none) ∧
    (findCategory s name = none →
      removeStructure true s name =
        .error ("No structure named: " ++ name ++ " to remove.", s) ∧
      removeStructure false s name = .ok s) ∧
    (∀ excFlag : Bool, init excFlag true = .error "Initialize called twice") := by
  refine ⟨?_, ?_, ?_, fun _ => rfl⟩
  · intro h
    have hchk1 : checkStructureNameInUse false s name true = .ok true := by
      simp [checkStructureNameInUse, h, error]
    have hchk2 : checkStructureNameInUse false s name false = .ok true := by
      simp [checkStructureNameInUse, h]
    refine ⟨?_, hchk1, ?_,
      fun hinv => registerPointCloud_log_dup_invariant s name d h hinv⟩
    · simp [registerPointCloud, checkStructureNameInUse, h, error]
    · simp [registerPointCloud, hchk1, hchk2]
  · intro h
    constructor <;> simp [getPointCloud, h, error]
  · intro h
    have h1 : ¬ (mapFind s.pointClouds name).isSome = true := fun hh => by
      simp [findCategory, hh] at h
    have h2 : ¬ (mapFind s.surfaceMeshes name).isSome = true := fun hh => by
      simp [findCategory, h1, hh] at h
    have h3 : ¬ (mapFind s.cameraViews name).isSome = true := fun hh => by
      simp [findCategory, h1, h2, hh] at h
    have h4 : ¬ (mapFind s.raySets name).isSome = true := fun hh => by
      simp [findCategory, h1, h2, h3, hh] at h
    constructor <;> simp [removeStructure, h1, h2, h3, h4, error]

/-- Registry holding one surface mesh named "m". -/
def stateM : PolyState := runExc (registerSurfaceMesh true initState "m" dA false)

/-- Witness for the error-channel routing: duplicate name at "m" on
both channel settings (raise with state unchanged; log, continue as a
replacement, invariant preserved), lookup and removal of unknown "zz",
double-initialization. -/
theorem misuse_error_channel_witness :
    (nameInCats stateM.structureCategories "m" = true ∧
      registerPointCloud true stateM "m" dB false =
        .error ("Structure name " ++ "m" ++ " is already in use.", stateM) ∧
      checkStructureNameInUse false stateM "m" true = .ok true ∧
      registerPointCloud false stateM "m" dB false =
        registerPointCloud false stateM "m" dB true ∧
      registryInvariant stateM ∧
      registryInvariant (runExc (registerPointCloud false stateM "m" dB false))) ∧
    (mapFind stateM.pointClouds "zz" = none ∧
      getPointCloud false stateM "zz" = .ok none) ∧
    (findCategory stateM "zz" = none ∧
      removeStructure true stateM "zz" =
        .error ("No structure named: " ++ "zz" ++ " to remove.", stateM)) ∧
    init false true = .error "Initialize called twice" := by
  have hinvM : registryInvariant stateM := by
    unfold registryInvariant
    decide
  have h1 := (misuse_error_channel stateM "m" dB).1 (by decide)
  exact ⟨⟨by decide, h1.1, h1.2.1, h1.2.2.1, hinvM, h1.2.2.2 hinvM⟩,
    ⟨by decide, ((misuse_error_channel stateM "zz" dB).2.1 (by decide)).2⟩,
    ⟨by decide, ((misuse_error_channel stateM "zz" dB).2.2.1 (by decide)).1⟩,
    (misuse_error_channel stateM "zz" dB).2.2.2 false⟩

/-- C6: removing a structure that exists in the registry succeeds, and
in the resulting state the pick selection is cleared when it referenced
the removed structure and untouched when it referenced any other
structure. The model applies clearPickIfStructureSelected before the
map erases, mirroring the source's clear-before-destroy ordering, so the
single resulting state is the only observable one and never carries a
selection for the removed structure. -/
theorem remove_clears_selection (exc : Bool) (s : PolyState) (name : String)
    (t : StructureType) (h : findCategory s name = some t) :
    ∃ s', removeStructure exc s name = .ok s' ∧
      (∀ p, s.pickSel = some p → p.refType = t → p.refName = name → s'.pickSel = none) ∧
      (∀ p, s.pickSel = some p → ¬(p.refType = t ∧ p.refName = name) →
        s'.pickSel = s.pickSel) := by
  have hclear1 : ∀ p, s.pickSel = some p → p.refType = t → p.refName = name →
      clearPickIfStructureSelected s.pickSel t name = none := by
    intro p hp ht hn
    rw [hp]
    simp [clearPickIfStructureSelected, ht, hn]
  have hclear2 : ∀ p, s.pickSel = some p → ¬(p.refType = t ∧ p.refName = name) →
      clearPickIfStructureSelected s.pickSel t name = s.pickSel := by
    intro p hp hne
    rw [hp]
    simp only [clearPickIfStructureSelected, ite_eq_right_iff]
    intro hcon
    exact absurd hcon hne
  unfold findCategory at h
  by_cases h1 : (mapFind s.pointClouds name).isSome
  · rw [if_pos h1] at h
    cases h
    refine ⟨{ s with
        pickSel := clearPickIfStructureSelected s.pickSel .pointCloud name
        pointClouds := mapErase s.pointClouds name
        structureCategories := catsErase s.structureCategories .pointCloud name },
      ?_, hclear1, hclear2⟩
    unfold removeStructure
    rw [if_pos h1]
  · rw [if_neg h1] at h
    by_cases h2 : (mapFind s.surfaceMeshes name).isSome
    · rw [if_pos h2] at h
      cases h
      refine ⟨{ s with
          pickSel := clearPickIfStructureSelected s.pickSel .surfaceMesh name
          surfaceMeshes := mapErase s.surfaceMeshes name
          structureCategories := catsErase s.structureCategories .surfaceMesh name },
        ?_, hclear1, hclear2⟩
      unfold removeStructure
      rw [if_neg h1, if_pos h2]
    · rw [if_neg h2] at h
      by_cases h3 : (mapFind s.cameraViews name).isSome
      · rw [if_pos h3] at h
        cases h
        refine ⟨{ s with
            pickSel := clearPickIfStructureSelected s.pickSel .cameraView name
            cameraViews := mapErase s.cameraViews name
            structureCategories := catsErase s.structureCategories .cameraView name },
          ?_, hclear1, hclear2⟩
        unfold removeStructure
        rw [if_neg h1, if_neg h2, if_pos h3]
      · rw [if_neg h3] at h
        by_cases h4 : (mapFind s.raySets name).isSome
        · rw [if_pos h4] at h
          cases h
          refine ⟨{ s with
              pickSel := clearPickIfStructureSelected s.pickSel .raySet name
              raySets := mapErase s.raySets name
              structureCategories := catsErase s.structureCategories .raySet name },
            ?_, hclear1, hclear2⟩
          unfold removeStructure
          rw [if_neg h1, if_neg h2, if_neg h3, if_pos h4]
        · rw [if_neg h4] at h
          cases h

/-- Registry holding surface mesh "m" with a selection referencing it. -/
def stateMsel : PolyState :=
  { stateM with pickSel := some ⟨.surfaceMesh, "m", 3, 1⟩ }

/-- Witness for selection clearing: removing the selected surface mesh
"m" clears the selection; removing it while the selection references a
different structure leaves the selection in place. -/
theorem remove_clears_selection_witness :
    findCategory stateMsel "m" = some .surfaceMesh ∧
    (∃ s', removeStructure true stateMsel "m" = .ok s' ∧ s'.pickSel = none) ∧
    (∃ s', removeStructure true
        { stateMsel with pickSel := some ⟨.pointCloud, "other", 2, 0⟩ } "m" = .ok s' ∧
      s'.pickSel = some ⟨.pointCloud, "other", 2, 0⟩) := by
  obtain ⟨s', hok, hcl, -⟩ :=
    remove_clears_selection true stateMsel "m" .surfaceMesh (by decide)
  obtain ⟨s'', hok2, -, hkeep⟩ :=
    remove_clears_selection true
      { stateMsel with pickSel := some ⟨.pointCloud, "other", 2, 0⟩ } "m" .surfaceMesh
      (by decide)
  exact ⟨by decide, ⟨s', hok, hcl _ rfl rfl rfl⟩, ⟨s'', hok2, hkeep _ rfl (by decide)⟩⟩

end Polyscope
